import Mathlib

/-!
Shallow embedding of the document text-extraction pipeline of
`src/document_parser.py` (class `AdvancedDocumentParser`).

External effects (the PDF library, the OCR engine, the two remote HTTP
services, PyPDF2) are modelled as explicit inputs:

* a parsed PDF document is `Option (List Page)` — `none` means the library
  raised on open, `some pages` gives per-page text, embedded-image count and
  per-table extraction outcomes (`none` = the table's `extract()` raised);
* the OCR step (`convert_from_bytes` + `pytesseract`) is `Option (List String)`
  — `none` means the raster/OCR step raised, otherwise the per-page OCR text;
* the PyPDF2 fallback is `Option (List String)` plus the exception message
  used when it raised;
* each remote call's single attempt is a pure function of the modelled
  responses, and the whole retried call's outcome, as seen by the
  orchestrator, is an `Except Unit (Option String)` (`Except.error` = the
  exception escaping all retries, `Except.ok none` = the parser's "no result"
  signal `None`, `Except.ok (some s)` = returned text `s`).

Every function below is translated clause-for-clause from the Python source;
Python truthiness tests (`if result:`, `if text_parts:`, `if table_data:`,
`if row`, `if text.strip():`) become the corresponding emptiness tests.
-/

namespace DocParser

/-- Characters removed by Python `str.strip()` with no argument (ASCII
whitespace; the strings in this development use no exotic Unicode space). -/
def strip_chars (l : List Char) : List Char :=
  ((l.dropWhile Char.isWhitespace).reverse.dropWhile Char.isWhitespace).reverse

/-- Python `s.strip()`: drop leading and trailing whitespace. Defined over
the character list so that the kernel can evaluate it on literals. -/
def pystrip (s : String) : String := String.mk (strip_chars s.data)

/-- Model of one PDF page as seen by PyMuPDF: `page.get_text()` output,
`len(page.get_images())`, and for each table found by `page.find_tables()`
the outcome of `table.extract()` (`none` = it raised). -/
structure Page where
  text : String
  images : Nat
  tables : List (Option (List (List String)))
  deriving DecidableEq, Repr

/-- Loop body of `_is_scanned_document`: accumulate
`total_chars += len(text.strip())` and `total_images += len(images)`. -/
def scan_step (acc : Nat × Nat) (p : Page) : Nat × Nat :=
  (acc.1 + (pystrip p.text).length, acc.2 + p.images)

/-- The `for page_num in range(min(3, len(doc)))` loop of
`_is_scanned_document`, started from `(0, 0)`. -/
def scan_stats (pages : List Page) : Nat × Nat :=
  (pages.take 3).foldl scan_step (0, 0)

/-- `AdvancedDocumentParser._is_scanned_document`: `none` stands for a
document on which `fitz.open` (or anything else inside the `try`) raised,
in which case the `except` clause returns `False`. -/
def is_scanned_document : Option (List Page) → Bool
  | none => false
  | some pages =>
    let s := scan_stats pages
    decide (s.1 < 100) && decide (0 < s.2)

/-- `AdvancedDocumentParser._basic_text_extraction`: PyPDF2 either raises
(`basic = none`, producing the failure-description string from the `except`
branch) or yields one extracted text per page, concatenated with `"\n"`
after each and stripped at the end. -/
def basic_text_extraction (basic : Option (List String)) (err : String) : String :=
  match basic with
  | some pages => pystrip (pages.foldl (fun acc t => acc ++ t ++ "\n") "")
  | none => "Failed to extract text from document: " ++ err

/-- Inner `try` of the table loop in `_extract_with_pymupdf`: a raising
`table.extract()` (`none`) is swallowed (`except: pass`); an extracted
`table_data` is appended under a `Table:` label when it is non-empty
(Python truthiness of the list), rows joined by `"\n"` after tab-joining
each non-empty row. -/
def append_table (text : String) (t : Option (List (List String))) : String :=
  match t with
  | none => text
  | some data =>
    if data.isEmpty then text
    else
      let table_text :=
        String.intercalate "\n" ((data.filter (fun r => !r.isEmpty)).map
          (fun row => String.intercalate "\t" row))
      text ++ "\n\nTable:\n" ++ table_text ++ "\n"

/-- Text accumulated for one page of `_extract_with_pymupdf`:
`page.get_text("text")` followed by the table loop. -/
def page_text (p : Page) : String :=
  p.tables.foldl append_table p.text

/-- Section contributed by page `i` (0-based) in `_extract_with_pymupdf`:
skipped when the combined text is empty after stripping, otherwise the
page header followed by the stripped text. -/
def page_section (i : Nat) (p : Page) : Option String :=
  let t := page_text p
  if (pystrip t).isEmpty then none
  else some ("--- Page " ++ toString (i + 1) ++ " ---\n" ++ pystrip t)

/-- The page loop of `_extract_with_pymupdf`, collecting the sections in
order with their 0-based page numbers. -/
def page_sections : Nat → List Page → List String
  | _, [] => []
  | i, p :: rest =>
    match page_section i p with
    | some s => s :: page_sections (i + 1) rest
    | none => page_sections (i + 1) rest

/-- `AdvancedDocumentParser._extract_with_pymupdf`: on a document that fails
to open (`none`) the `except` branch falls back to `_basic_text_extraction`;
otherwise the collected page sections are joined with a blank line. -/
def extract_with_pymupdf (doc : Option (List Page)) (basic : Option (List String))
    (err : String) : String :=
  match doc with
  | none => basic_text_extraction basic err
  | some pages => String.intercalate "\n\n" (page_sections 0 pages)

/-- The `for i, image in enumerate(images)` loop of `_extract_with_ocr`:
pages whose OCR text strips to empty are omitted, others contribute
`--- Page N ---` (1-based) followed by a newline and the stripped text. -/
def ocr_sections : Nat → List String → List String
  | _, [] => []
  | i, t :: rest =>
    if (pystrip t).isEmpty then ocr_sections (i + 1) rest
    else ("--- Page " ++ toString (i + 1) ++ " ---\n" ++ pystrip t) :: ocr_sections (i + 1) rest

/-- `AdvancedDocumentParser._extract_with_ocr`: `ocr = none` means the
raster/OCR step raised, in which case the `except` branch returns
`_extract_with_pymupdf`'s output; otherwise the sections are joined with a
blank line. -/
def extract_with_ocr (ocr : Option (List String)) (doc : Option (List Page))
    (basic : Option (List String)) (err : String) : String :=
  match ocr with
  | none => extract_with_pymupdf doc basic err
  | some texts => String.intercalate "\n\n" (ocr_sections 0 texts)

/-- One response of the LlamaParse job-status endpoint, as read by
`_parse_with_llama_parse`: `result_response.status_code`,
`result_data.get("status")` and `result_data.get("text", "")`. -/
structure PollResponse where
  status_code : Nat
  status : String
  text : String
  deriving DecidableEq, Repr

/-- Outcome of the upload step of `_parse_with_llama_parse`: `err` when
`client.post`/`raise_for_status` raised, otherwise `job_data.get("id")`. -/
inductive UploadOutcome where
  | err : UploadOutcome
  | ok : Option String → UploadOutcome
  deriving DecidableEq, Repr

/-- Interval of `asyncio.sleep(10)` between polls in `_parse_with_llama_parse`. -/
def llama_poll_interval : Nat := 10

/-- Bound of the `for _ in range(30)` polling loop in `_parse_with_llama_parse`. -/
def llama_poll_budget : Nat := 30

/-- The polling loop of `_parse_with_llama_parse`, reading poll `i`,
`i + 1`, ... with `fuel` iterations left; returns the loop's value together
with the number of polls performed. A 200 response with status `SUCCESS`
returns its text; any other 200 response and any 202 response continue the
loop; any other status code breaks out of the loop (value `none`); an
exhausted budget also yields `none`. -/
def llama_poll_from (polls : Nat → PollResponse) (i : Nat) :
    Nat → Option String × Nat
  | 0 => (none, 0)
  | Nat.succ fuel =>
    let r := polls i
    if r.status_code = 200 then
      if r.status = "SUCCESS" then (some r.text, 1)
      else
        let p := llama_poll_from polls (i + 1) fuel
        (p.1, p.2 + 1)
    else if r.status_code = 202 then
      let p := llama_poll_from polls (i + 1) fuel
      (p.1, p.2 + 1)
    else (none, 1)

/-- One attempt of `AdvancedDocumentParser._parse_with_llama_parse`
(the body inside the `@retry` decorator): a raising upload propagates as an
exception; a missing job id returns `None`; otherwise the polling loop runs
with budget 30 and its value is returned. -/
def parse_with_llama_parse (upload : UploadOutcome) (polls : Nat → PollResponse) :
    Except Unit (Option String) :=
  match upload with
  | UploadOutcome.err => Except.error ()
  | UploadOutcome.ok none => Except.ok none
  | UploadOutcome.ok (some _) => Except.ok (llama_poll_from polls 0 llama_poll_budget).1

/-- One element of the Unstructured API response: `element.get("type")`
(`none` when the key is absent) and `element.get("text", "")`. -/
structure Element where
  etype : Option String
  text : String
  deriving DecidableEq, Repr

/-- Python membership test
`element.get("type") in ["Title", "NarrativeText", "ListItem", "Table"]`. -/
def element_type_allowed (e : Element) : Bool :=
  match e.etype with
  | some t => ["Title", "NarrativeText", "ListItem", "Table"].contains t
  | none => false

/-- Loop body of the element loop of `_parse_with_unstructured`: keep an
allowed-type element's stripped text when it is non-empty. -/
def element_step (acc : List String) (e : Element) : List String :=
  if element_type_allowed e then
    if (pystrip e.text).isEmpty then acc else acc ++ [pystrip e.text]
  else acc

/-- The response-processing part of
`AdvancedDocumentParser._parse_with_unstructured` (after
`raise_for_status`): build `text_parts` with the element loop and return
`"\n\n".join(text_parts) if text_parts else None`. -/
def parse_with_unstructured_elements (elements : List Element) : Option String :=
  let text_parts := elements.foldl element_step []
  if text_parts.isEmpty then none
  else some (String.intercalate "\n\n" text_parts)

/-- Declarative per-element form of the element filter, for comparison with
the loop: an element survives exactly when its type is allowed and its
stripped text is non-empty, contributing that stripped text. -/
def element_kept_text (e : Element) : Option String :=
  if element_type_allowed e then
    if (pystrip e.text).isEmpty then none else some (pystrip e.text)
  else none

/-- Wait of tenacity's `wait_exponential(multiplier=1, min=4, max=10)`
before the retry following the `n`-th failed attempt (`n` is 1-based):
`multiplier * 2 ^ n` clamped into `[min, max]`. -/
def backoff_wait (n : Nat) : Nat := min (max (2 ^ n) 4) 10

/-- Tenacity `retry(stop=stop_after_attempt(3))` around a call whose `i`-th
attempt has outcome `attempts i`: run attempts from index `i` while `fuel`
attempts remain; a raising attempt is retried, a returning attempt ends the
call. Returns the call's outcome together with the number of attempts made
(after three raising attempts the exception escapes). -/
def retry_call (attempts : Nat → Except Unit (Option String)) (i : Nat) :
    Nat → Except Unit (Option String) × Nat
  | 0 => (Except.error (), 0)
  | Nat.succ fuel =>
    match attempts i with
    | Except.ok v => (Except.ok v, 1)
    | Except.error _ =>
      let p := retry_call attempts (i + 1) fuel
      (p.1, p.2 + 1)

/-- Attempt budget of `stop_after_attempt(3)`. -/
def retry_attempts : Nat := 3

/-- The whole environment one `parse_document` call sees: the parsed
document (shared by `_is_scanned_document` and `_extract_with_pymupdf`),
whether each API key is set (truthiness of
`self.llama_parse_api_key` / `self.unstructured_api_key`), the outcome of
each retried remote call, the OCR outcome and the PyPDF2 outcome. -/
structure Env where
  doc : Option (List Page)
  llama_key : Bool
  unstructured_key : Bool
  llama_result : Except Unit (Option String)
  unstructured_result : Except Unit (Option String)
  ocr : Option (List String)
  basic : Option (List String)
  basic_err : String

/-- Python truthiness of an `Optional[str]`: `None` and `""` are falsy. -/
def truthy : Option String → Bool
  | none => false
  | some s => !s.isEmpty

/-- One guarded remote stage of `parse_document`: skipped when the key is
unset; the `try` block returns the call's result when it is truthy
(`if result: return result`); a raised exception is caught and logged; in
every other case the orchestrator moves on (`none`). -/
def stage_result (key : Bool) (r : Except Unit (Option String)) : Option String :=
  if key then
    match r with
    | Except.ok v => if truthy v then v else none
    | Except.error _ => none
  else none

/-- The non-scanned branch of `parse_document`: LlamaParse stage, then
Unstructured stage, then the PyMuPDF fallback. -/
def non_scanned_flow (env : Env) : String :=
  match stage_result env.llama_key env.llama_result with
  | some r => r
  | none =>
    match stage_result env.unstructured_key env.unstructured_result with
    | some r => r
    | none => extract_with_pymupdf env.doc env.basic env.basic_err

/-- `AdvancedDocumentParser.parse_document`: classify via
`_is_scanned_document`, route scanned documents to `_extract_with_ocr` and
the rest through the remote stages to the PyMuPDF fallback. Every branch of
the body is non-raising in this model (each inner call catches its own
exceptions), so the outer `try`/`except` funneling into
`_basic_text_extraction` is never exercised and the function is total. -/
def parse_document (env : Env) : String :=
  if is_scanned_document env.doc then
    extract_with_ocr env.ocr env.doc env.basic env.basic_err
  else
    non_scanned_flow env

/-- Concrete environment: a scanned two-page document whose OCR yields
`"Hello"` on page 1 and `""` on page 2. -/
def env_scanned_two_pages : Env :=
  { doc := some [⟨"", 1, []⟩, ⟨"", 0, []⟩]
  , llama_key := false
  , unstructured_key := false
  , llama_result := Except.ok none
  , unstructured_result := Except.ok none
  , ocr := some ["Hello", ""]
  , basic := none
  , basic_err := "e" }

/-- Concrete environment in which every strategy fails: both remote calls
raise through all retries, the document does not open, and PyPDF2 raises. -/
def env_all_fail : Env :=
  { doc := none
  , llama_key := true
  , unstructured_key := true
  , llama_result := Except.error ()
  , unstructured_result := Except.error ()
  , ocr := none
  , basic := none
  , basic_err := "boom" }

/-- Concrete environment: non-scanned one-page document, no API keys. -/
def env_local_only : Env :=
  { doc := some [⟨"hi", 0, []⟩]
  , llama_key := false
  , unstructured_key := false
  , llama_result := Except.ok none
  , unstructured_result := Except.ok none
  , ocr := none
  , basic := none
  , basic_err := "e" }

/-- Concrete environment: a document that opens with zero pages. -/
def env_zero_pages : Env :=
  { doc := some []
  , llama_key := false
  , unstructured_key := false
  , llama_result := Except.ok none
  , unstructured_result := Except.ok none
  , ocr := some ["ocr page"]
  , basic := none
  , basic_err := "e" }

/-- Concrete environment: the LlamaParse stage returns the empty string on a
non-scanned one-page document whose structural text is `"X"`. -/
def env_llama_empty : Env :=
  { doc := some [⟨"X", 0, []⟩]
  , llama_key := true
  , unstructured_key := false
  , llama_result := Except.ok (some "")
  , unstructured_result := Except.ok none
  , ocr := none
  , basic := none
  , basic_err := "e" }

/-! Helper lemmas. -/

lemma scan_foldl (pages : List Page) (a b : Nat) :
    pages.foldl scan_step (a, b) =
      (a + (pages.map fun p => (pystrip p.text).length).sum,
       b + (pages.map fun p => p.images).sum) := by
  induction pages generalizing a b with
  | nil => simp
  | cons p rest ih => simp [scan_step, ih, Nat.add_assoc]

lemma scan_stats_eq (pages : List Page) :
    scan_stats pages =
      (((pages.take 3).map fun p => (pystrip p.text).length).sum,
       ((pages.take 3).map fun p => p.images).sum) := by
  unfold scan_stats
  rw [scan_foldl (pages.take 3) 0 0]
  simp only [Nat.zero_add]

lemma llama_poll_count_le (polls : Nat → PollResponse) :
    ∀ fuel i, (llama_poll_from polls i fuel).2 ≤ fuel := by
  intro fuel
  induction fuel with
  | zero => intro i; simp [llama_poll_from]
  | succ f ih =>
    intro i
    have h := ih (i + 1)
    by_cases h200 : (polls i).status_code = 200
    · by_cases hs : (polls i).status = "SUCCESS"
      · simp [llama_poll_from, h200, hs]
      · simp [llama_poll_from, h200, hs]
        omega
    · by_cases h202 : (polls i).status_code = 202
      · simp [llama_poll_from, h200, h202]
        omega
      · simp [llama_poll_from, h200, h202]

lemma llama_poll_no_success (polls : Nat → PollResponse)
    (h : ∀ j, ¬((polls j).status_code = 200 ∧ (polls j).status = "SUCCESS")) :
    ∀ fuel i, (llama_poll_from polls i fuel).1 = none := by
  intro fuel
  induction fuel with
  | zero => intro i; simp [llama_poll_from]
  | succ f ih =>
    intro i
    by_cases h200 : (polls i).status_code = 200
    · have hs : ¬((polls i).status = "SUCCESS") := fun hs => h i ⟨h200, hs⟩
      simp [llama_poll_from, h200, hs, ih]
    · by_cases h202 : (polls i).status_code = 202
      · simp [llama_poll_from, h200, h202, ih]
      · simp [llama_poll_from, h200, h202]

lemma element_foldl (es : List Element) (acc : List String) :
    es.foldl element_step acc = acc ++ es.filterMap element_kept_text := by
  induction es generalizing acc with
  | nil => simp
  | cons e rest ih =>
    by_cases ha : element_type_allowed e = true
    · by_cases he : (pystrip e.text).isEmpty = true
      · simp [element_step, element_kept_text, ha, he, ih]
      · simp [element_step, element_kept_text, ha, he, ih]
    · simp [element_step, element_kept_text, ha, ih]

lemma string_length_zero_iff (s : String) : s.length = 0 ↔ s = "" := by
  constructor
  · intro h
    cases s with
    | mk data =>
      cases data with
      | nil => rfl
      | cons c cs => simp [String.length] at h
  · intro h; simp [h]

lemma intercalate_go_length (s : String) :
    ∀ (l : List String) (acc : String),
      acc.length ≤ (String.intercalate.go acc s l).length := by
  intro l
  induction l with
  | nil => intro acc; simp [String.intercalate.go]
  | cons a as ih =>
    intro acc
    calc acc.length ≤ (acc ++ s ++ a).length := by
          simp [String.length_append]
          omega
      _ ≤ _ := by simpa [String.intercalate.go] using ih (acc ++ s ++ a)

lemma intercalate_ne_empty (s p : String) (rest : List String)
    (hp : p.length ≠ 0) : String.intercalate s (p :: rest) ≠ "" := by
  intro hcon
  have h1 : p.length ≤ (String.intercalate s (p :: rest)).length := by
    simpa [String.intercalate] using intercalate_go_length s rest p
  rw [hcon] at h1
  have h0 : ("" : String).length = 0 := rfl
  omega

lemma ocr_sections_append_empty :
    ∀ (texts : List String) (i : Nat),
      ocr_sections i (texts ++ [""]) = ocr_sections i texts := by
  intro texts
  induction texts with
  | nil =>
    intro i
    simp [ocr_sections, show (pystrip "").isEmpty = true from rfl]
  | cons t rest ih =>
    intro i
    by_cases h : (pystrip t).isEmpty = true
    · simp [ocr_sections, h, ih]
    · simp [ocr_sections, h, ih]

lemma page_text_erase_none (tx : String) (img : Nat)
    (ts1 ts2 : List (Option (List (List String)))) :
    page_text ⟨tx, img, ts1 ++ none :: ts2⟩ = page_text ⟨tx, img, ts1 ++ ts2⟩ := by
  simp [page_text, List.foldl_append, List.foldl_cons, append_table]

lemma llama_poll_bad_code (polls : Nat → PollResponse) (i fuel : Nat)
    (h200 : (polls i).status_code ≠ 200) (h202 : (polls i).status_code ≠ 202) :
    llama_poll_from polls i (fuel + 1) = (none, 1) := by
  show llama_poll_from polls i (Nat.succ fuel) = (none, 1)
  simp [llama_poll_from, h200, h202]

lemma unstructured_filterMap_form (es : List Element) :
    parse_with_unstructured_elements es =
      (if (es.filterMap element_kept_text).isEmpty then none
       else some (String.intercalate "\n\n" (es.filterMap element_kept_text))) := by
  simp [parse_with_unstructured_elements, element_foldl]

lemma retry_call_succ (a : Nat → Except Unit (Option String)) (i fuel : Nat) :
    retry_call a i (fuel + 1) =
      (match a i with
       | Except.ok v => (Except.ok v, 1)
       | Except.error _ => ((retry_call a (i + 1) fuel).1, (retry_call a (i + 1) fuel).2 + 1)) :=
  rfl

/-! Claim theorems. -/

/-- C1: the orchestrator's `parse_document` returns a string for every
input and never raises (it is total by construction: every inner component
catches its own exceptions); in particular, when every structured/remote
strategy fails — both remote stages yield nothing usable, the document does
not open, and even PyPDF2 raises — the raw fallback extractor still
produces a string, namely the human-readable failure-description string
built from the exception message. -/
theorem parse_document_always_returns_text :
    ∀ env : Env,
      stage_result env.llama_key env.llama_result = none →
      stage_result env.unstructured_key env.unstructured_result = none →
      env.doc = none →
      env.basic = none →
      parse_document env = "Failed to extract text from document: " ++ env.basic_err := by
  intro env h1 h2 hdoc hbasic
  simp [parse_document, hdoc, is_scanned_document, non_scanned_flow, h1, h2,
    extract_with_pymupdf, basic_text_extraction, hbasic]

/-- Witness for C1 at the concrete all-fail environment. -/
theorem parse_document_always_returns_text_witness :
    parse_document env_all_fail = "Failed to extract text from document: boom" :=
  parse_document_always_returns_text env_all_fail rfl rfl rfl rfl

/-- C2: `_is_scanned_document` classifies a document as scanned exactly when
the summed stripped-character count over the first `min(3, page_count)`
pages is below 100 and the summed embedded-image count over those pages is
positive; a document on which opening raises yields `false` rather than an
exception; in particular any document with at least 100 extractable
characters on its first three pages yields `false`. -/
theorem scan_detector_correct :
    (is_scanned_document none = false) ∧
    (∀ pages : List Page,
      (is_scanned_document (some pages) = true ↔
        (((pages.take 3).map fun p => (pystrip p.text).length).sum < 100 ∧
         0 < ((pages.take 3).map fun p => p.images).sum))) ∧
    (∀ pages : List Page,
      100 ≤ ((pages.take 3).map fun p => (pystrip p.text).length).sum →
      is_scanned_document (some pages) = false) := by
  refine ⟨rfl, fun pages => ?_, fun pages h => ?_⟩
  · simp [is_scanned_document, scan_stats_eq]
  · simp only [List.map_take] at h
    simp [is_scanned_document, scan_stats_eq]
    omega

/-- Witness for C2: a single page with 100 extractable characters is not
classified as scanned even though it carries images. -/
theorem scan_detector_correct_witness :
    is_scanned_document (some [⟨String.mk (List.replicate 100 'a'), 5, []⟩]) = false :=
  scan_detector_correct.2.2 [⟨String.mk (List.replicate 100 'a'), 5, []⟩] (by decide)

/-- C10: a document that opens with zero pages is classified not-scanned
(the page loop runs zero times, so both counters are zero and the
image-count conjunct fails), and `parse_document` therefore routes it to
the non-scanned branch, never to OCR. -/
theorem zero_page_document_not_scanned :
    (scan_stats [] = (0, 0)) ∧
    (is_scanned_document (some []) = false) ∧
    (∀ env : Env, env.doc = some [] → parse_document env = non_scanned_flow env) := by
  refine ⟨rfl, rfl, fun env h => ?_⟩
  simp [parse_document, h, show is_scanned_document (some []) = false from rfl]

/-- Witness for C10 at a concrete zero-page environment. -/
theorem zero_page_document_not_scanned_witness :
    parse_document env_zero_pages = non_scanned_flow env_zero_pages :=
  zero_page_document_not_scanned.2.2 env_zero_pages rfl

/-- C3: a LlamaParse job whose polling responses never report a 200/SUCCESS
outcome makes `_parse_with_llama_parse` return the "no result" signal
(`None`) rather than raise; the loop performs at most 30 polls, one per
fixed 10-time-unit sleep (at most 300 time units of waiting); and the loop
terminates early — after the single offending poll, yielding `none` — on
any response whose status code is neither 200 nor 202. -/
theorem llama_never_success_returns_none :
    (∀ (polls : Nat → PollResponse) (jobId : String),
      (∀ j, ¬((polls j).status_code = 200 ∧ (polls j).status = "SUCCESS")) →
      parse_with_llama_parse (UploadOutcome.ok (some jobId)) polls = Except.ok none) ∧
    (∀ (polls : Nat → PollResponse) (i : Nat),
      (llama_poll_from polls i llama_poll_budget).2 ≤ 30 ∧
      llama_poll_interval * (llama_poll_from polls i llama_poll_budget).2 ≤ 300) ∧
    (∀ (polls : Nat → PollResponse) (i fuel : Nat),
      (polls i).status_code ≠ 200 → (polls i).status_code ≠ 202 →
      llama_poll_from polls i (fuel + 1) = (none, 1)) := by
  refine ⟨fun polls jobId h => ?_, fun polls i => ?_, fun polls i fuel h200 h202 => ?_⟩
  · show Except.ok (llama_poll_from polls 0 llama_poll_budget).1 = Except.ok none
    rw [llama_poll_no_success polls h llama_poll_budget 0]
  · have h30 : (llama_poll_from polls i llama_poll_budget).2 ≤ 30 :=
      llama_poll_count_le polls llama_poll_budget i
    refine ⟨h30, ?_⟩
    have hi : llama_poll_interval = 10 := rfl
    rw [hi]
    omega
  · exact llama_poll_bad_code polls i fuel h200 h202

/-- Witness for C3: under permanently processing (202) poll responses the
parser returns the "no result" signal. -/
theorem llama_never_success_returns_none_witness :
    parse_with_llama_parse (UploadOutcome.ok (some "job"))
      (fun _ => ⟨202, "PENDING", ""⟩) = Except.ok none :=
  llama_never_success_returns_none.1 (fun _ => ⟨202, "PENDING", ""⟩) "job"
    (fun j => by simp)

/-- C8: each remote call is wrapped in tenacity
`retry(stop_after_attempt(3), wait_exponential(multiplier=1, min=4, max=10))`:
a raising attempt is re-run from the job-submission step, up to 3 attempts
in total; after three raising attempts the exception escapes; a failure
inside one attempt's polling loop (a status code that is neither 200 nor
202) is not individually retried — it ends that attempt's polling loop with
a returned `None`, so the retried call stops after that single attempt; the
orchestrator catches an escaping exception and continues to the next stage;
and every backoff wait is clamped between the base delay 4 and the cap 10. -/
theorem remote_retry_policy :
    (∀ (a : Nat → Except Unit (Option String)) (v : Option String),
      a 0 = Except.error () → a 1 = Except.error () → a 2 = Except.ok v →
      retry_call a 0 retry_attempts = (Except.ok v, 3)) ∧
    (∀ a : Nat → Except Unit (Option String),
      (∀ i, a i = Except.error ()) →
      retry_call a 0 retry_attempts = (Except.error (), 3)) ∧
    (∀ (polls : Nat → PollResponse) (jobId : String),
      (polls 0).status_code ≠ 200 → (polls 0).status_code ≠ 202 →
      retry_call (fun _ => parse_with_llama_parse (UploadOutcome.ok (some jobId)) polls)
        0 retry_attempts = (Except.ok none, 1)) ∧
    (∀ env : Env, env.llama_result = Except.error () →
      non_scanned_flow env = non_scanned_flow { env with llama_result := Except.ok none }) ∧
    (∀ env : Env, env.unstructured_result = Except.error () →
      non_scanned_flow env =
        non_scanned_flow { env with unstructured_result := Except.ok none }) ∧
    (backoff_wait 1 = 4 ∧ ∀ n : Nat, backoff_wait n ≤ 10) := by
  refine ⟨fun a v h0 h1 h2 => ?_, fun a h => ?_, fun polls jobId h200 h202 => ?_,
    fun env h => ?_, fun env h => ?_, rfl, fun n => Nat.min_le_right _ _⟩
  · have r1 : retry_call a 2 1 = (Except.ok v, 1) := by
      rw [show (1 : Nat) = 0 + 1 from rfl, retry_call_succ, h2]
    have r2 : retry_call a 1 2 = (Except.ok v, 2) := by
      rw [show (2 : Nat) = 1 + 1 from rfl, retry_call_succ, h1, r1]
    rw [show retry_attempts = 2 + 1 from rfl, retry_call_succ, h0, r2]
  · have r1 : retry_call a 2 1 = (Except.error (), 1) := by
      show retry_call a 2 (0 + 1) = (Except.error (), 1)
      rw [retry_call_succ, h 2]
      rfl
    have r2 : retry_call a 1 2 = (Except.error (), 2) := by
      show retry_call a 1 (1 + 1) = (Except.error (), 2)
      rw [retry_call_succ, h 1, r1]
    show retry_call a 0 (2 + 1) = (Except.error (), 3)
    rw [retry_call_succ, h 0, r2]
  · have ha : parse_with_llama_parse (UploadOutcome.ok (some jobId)) polls =
        Except.ok none := by
      show Except.ok (llama_poll_from polls 0 llama_poll_budget).1 = Except.ok none
      rw [show llama_poll_budget = 29 + 1 from rfl,
        llama_poll_bad_code polls 0 29 h200 h202]
    rw [show retry_attempts = 2 + 1 from rfl, retry_call_succ]
    simp [ha]
  · simp [non_scanned_flow, stage_result, h, truthy]
  · simp [non_scanned_flow, stage_result, h, truthy]

/-- Witness for C8: with the first two attempts raising and the third
returning, the retried call returns the third attempt's value after exactly
three attempts. -/
theorem remote_retry_policy_witness :
    retry_call (fun i => if i = 2 then Except.ok (some "t") else Except.error ()) 0
      retry_attempts = (Except.ok (some "t"), 3) :=
  remote_retry_policy.1 (fun i => if i = 2 then Except.ok (some "t") else Except.error ())
    (some "t") rfl rfl rfl

/-- C9 counterexample: with the LlamaParse stage returning the empty string
on a non-scanned document, `parse_document` does not return that result
immediately — it falls through and returns the structural extractor's
output instead. -/
theorem llama_empty_result_falls_through :
    env_llama_empty.llama_result = Except.ok (some "") ∧
    parse_document env_llama_empty = "--- Page 1 ---\nX" ∧
    parse_document env_llama_empty ≠ "" := by
  exact ⟨rfl, by decide, by decide⟩

/-- C9 (amended): on success status the layout parser returns the
response's text field even when it is the empty string; the orchestrator
returns a layout-parser result immediately only when it is truthy
(non-`None` and non-empty) — a returned empty string is treated like "no
result" and the orchestrator continues with the later stages. -/
theorem llama_success_text_returned :
    (∀ (polls : Nat → PollResponse) (jobId : String),
      (polls 0).status_code = 200 → (polls 0).status = "SUCCESS" →
      parse_with_llama_parse (UploadOutcome.ok (some jobId)) polls =
        Except.ok (some (polls 0).text)) ∧
    (∀ (env : Env) (r : String), is_scanned_document env.doc = false →
      env.llama_key = true → env.llama_result = Except.ok (some r) →
      r.isEmpty = false → parse_document env = r) ∧
    (∀ env : Env, env.llama_result = Except.ok (some "") →
      non_scanned_flow env = non_scanned_flow { env with llama_result := Except.ok none }) := by
  refine ⟨fun polls jobId h200 hs => ?_, fun env r hscan hkey hres hr => ?_,
    fun env h => ?_⟩
  · show Except.ok (llama_poll_from polls 0 llama_poll_budget).1 =
      Except.ok (some (polls 0).text)
    have hstep : llama_poll_from polls 0 llama_poll_budget = (some (polls 0).text, 1) := by
      show llama_poll_from polls 0 (Nat.succ 29) = (some (polls 0).text, 1)
      simp [llama_poll_from, h200, hs]
    rw [hstep]
  · simp [parse_document, hscan, non_scanned_flow, stage_result, hkey, hres, truthy, hr]
  · simp [non_scanned_flow, stage_result, h, truthy,
      show ("" : String).isEmpty = true from rfl]

/-- Witness for C9's amended theorem: a first poll that reports SUCCESS
with an empty text field makes the parser return that empty string. -/
theorem llama_success_text_returned_witness :
    parse_with_llama_parse (UploadOutcome.ok (some "job2"))
      (fun _ => ⟨200, "SUCCESS", ""⟩) = Except.ok (some "") :=
  llama_success_text_returned.1 (fun _ => ⟨200, "SUCCESS", ""⟩) "job2" rfl rfl

/-- C4: `_parse_with_unstructured` keeps exactly the elements whose type is
Title, NarrativeText, ListItem or Table and whose stripped text is
non-empty, joins the surviving stripped texts with a blank-line separator,
and returns the "no result" signal `None` — never the empty string — when
no element survives; in particular an element list containing only
`Image`-typed entries yields `None`. -/
theorem unstructured_element_filter :
    (∀ elements : List Element,
      parse_with_unstructured_elements elements =
        (if (elements.filterMap element_kept_text).isEmpty then none
         else some (String.intercalate "\n\n" (elements.filterMap element_kept_text)))) ∧
    (∀ elements : List Element, (∀ e ∈ elements, e.etype = some "Image") →
      parse_with_unstructured_elements elements = none) ∧
    (∀ elements : List Element, parse_with_unstructured_elements elements ≠ some "") := by
  refine ⟨unstructured_filterMap_form, fun es h => ?_, fun es hcon => ?_⟩
  · have hk : es.filterMap element_kept_text = [] := by
      rw [List.filterMap_eq_nil_iff]
      intro e he
      have ht := h e he
      simp [element_kept_text, element_type_allowed, ht,
        show (["Title", "NarrativeText", "ListItem", "Table"].contains "Image") = false
          by decide]
    simp [unstructured_filterMap_form, hk]
  · rw [unstructured_filterMap_form] at hcon
    by_cases hk : (es.filterMap element_kept_text).isEmpty = true
    · simp [hk] at hcon
    · simp [hk] at hcon
      obtain ⟨p, rest, hpr⟩ : ∃ p rest, es.filterMap element_kept_text = p :: rest := by
        cases hl : es.filterMap element_kept_text with
        | nil => rw [hl] at hk; simp at hk
        | cons p rest => exact ⟨p, rest, rfl⟩
      have hp : p.length ≠ 0 := by
        have hmem : p ∈ es.filterMap element_kept_text := by
          rw [hpr]
          exact List.mem_cons_self _ _
        obtain ⟨e, he, hke⟩ := List.mem_filterMap.mp hmem
        intro hlen
        have hpe : p = "" := (string_length_zero_iff p).mp hlen
        rw [hpe] at hke
        by_cases ha : element_type_allowed e = true
        · by_cases hempty : (pystrip e.text).isEmpty = true
          · simp [element_kept_text, ha, hempty] at hke
          · simp [element_kept_text, ha, hempty] at hke
            rw [hke] at hempty
            exact hempty rfl
        · simp [element_kept_text, ha] at hke
      rw [hpr] at hcon
      exact intercalate_ne_empty "\n\n" p rest hp hcon

/-- Witness for C4: a list holding a single Image element yields the "no
result" signal. -/
theorem unstructured_element_filter_witness :
    parse_with_unstructured_elements [⟨some "Image", "pic"⟩] = none :=
  unstructured_element_filter.2.1 [⟨some "Image", "pic"⟩] (by simp)

/-- C5: in the OCR extractor each page with non-empty stripped OCR output
contributes `--- Page N ---` (1-based) plus a newline and the stripped
text, sections are joined with a blank line and empty pages are omitted (a
trailing all-empty page changes nothing); end-to-end, a scanned two-page
document whose OCR yields "Hello" then "" produces exactly
`--- Page 1 ---\nHello`; and when the raster/OCR step raises, the OCR
extractor returns the structural extractor's output instead of propagating
the error. -/
theorem ocr_extractor_behaviour :
    (∀ (doc : Option (List Page)) (basic : Option (List String)) (err : String),
      extract_with_ocr none doc basic err = extract_with_pymupdf doc basic err) ∧
    (∀ (texts : List String) (i : Nat),
      ocr_sections i (texts ++ [""]) = ocr_sections i texts) ∧
    (parse_document env_scanned_two_pages = "--- Page 1 ---\nHello") := by
  refine ⟨fun doc basic err => rfl, ocr_sections_append_empty, by decide⟩

/-- C6: in the structural extractor a failing table extraction is swallowed
without affecting the page (removing a raising table from the table list
leaves the page section unchanged); a page whose combined text strips to
empty contributes no section; and a page with empty text but an extractable
table still contributes a section containing the `Table:` block. -/
theorem structural_extractor_tables :
    (∀ (i : Nat) (tx : String) (img : Nat)
        (ts1 ts2 : List (Option (List (List String)))),
      page_section i ⟨tx, img, ts1 ++ none :: ts2⟩ =
        page_section i ⟨tx, img, ts1 ++ ts2⟩) ∧
    (∀ (i : Nat) (p : Page), (pystrip (page_text p)).isEmpty = true →
      page_section i p = none) ∧
    (page_section 0 ⟨"", 0, [some [["a", "b"]]]⟩ = some "--- Page 1 ---\nTable:\na\tb") := by
  refine ⟨fun i tx img ts1 ts2 => ?_, fun i p h => ?_, by decide⟩
  · simp [page_section, page_text_erase_none]
  · simp [page_section, h]

/-- Witness for C6: a page whose text strips to empty and which has no
tables contributes no section. -/
theorem structural_extractor_tables_witness :
    page_section 0 ⟨" ", 0, []⟩ = none :=
  structural_extractor_tables.2.1 0 ⟨" ", 0, []⟩ (by decide)

/-- C7: for a non-scanned document with neither API key configured,
`parse_document` returns exactly the structural extractor's output,
unchanged, and the result does not depend on the remote stages' outcomes
in any way. -/
theorem local_only_uses_structural :
    (∀ env : Env, env.llama_key = false → env.unstructured_key = false →
      is_scanned_document env.doc = false →
      parse_document env = extract_with_pymupdf env.doc env.basic env.basic_err) ∧
    (∀ (env : Env) (lr ur : Except Unit (Option String)),
      env.llama_key = false → env.unstructured_key = false →
      parse_document { env with llama_result := lr, unstructured_result := ur } =
        parse_document env) := by
  refine ⟨fun env hl hu hscan => ?_, fun env lr ur hl hu => ?_⟩
  · simp [parse_document, hscan, non_scanned_flow, stage_result, hl, hu]
  · simp [parse_document, non_scanned_flow, stage_result, hl, hu]

/-- Witness for C7 at a concrete key-less, non-scanned environment. -/
theorem local_only_uses_structural_witness :
    parse_document env_local_only =
      extract_with_pymupdf env_local_only.doc env_local_only.basic env_local_only.basic_err :=
  local_only_uses_structural.1 env_local_only rfl rfl (by decide)

end DocParser
